import Mathlib

/-
Verification development for the call-signaling core of the two-way
click-to-talk application.

Embedded components (shallow embedding, one Lean definition per source
function):
  * `WebRTCConnection`  — the media-engine wrapper (src `webrtc.ts`):
    `initialize` (here `initializeConn`), `createOffer`, `createAnswer`,
    `handleOffer`, `handleAnswer`, `addIceCandidate`, `close`.
  * `SigState` — the `SignalingService` (src `signaling.ts`):
    `joinRoom`, `sendSignal`, `onMessage`, `getPeerId`, `leave`.
  * `AppState` / `handleSignalMessage` / `initializeConnection` — the
    `ClickToTalkApp` connection manager (src `main.ts`).

Asynchronous platform outcomes (microphone acquisition, relay publish,
room resolution) are passed in as explicit parameters; JavaScript
exceptions are modelled with `Except` or an explicit error slot, and the
`try/catch` in `handleSignalMessage` is modelled by recording the caught
error while keeping every mutation performed before the throw.
-/

/-- A session description, the value produced by the platform engine's
`createOffer` / `createAnswer` and consumed by `setRemoteDescription`.
Its content never matters to the signaling core, only whether a received
payload is one. -/
inductive SessionDesc
  | offerDesc
  | answerDesc
deriving DecidableEq, Repr

/-- The `signal_data` field of a wire message (src `types.ts`): a session
description for offer/answer, a candidate descriptor for ice-candidate,
or a plain object (the empty payload of join/leave, or any malformed
payload). -/
inductive SignalData
  | sdp (d : SessionDesc)
  | ice (candidate : String)
  | obj
deriving DecidableEq, Repr

/-- The `signal_type` field of a wire message (src `types.ts`). -/
inductive SignalType
  | offer
  | answer
  | iceCandidate
  | join
  | leave
deriving DecidableEq, Repr

/-- The relay wire message (src `types.ts`, interface `SignalMessage`). -/
structure SignalMessage where
  room_id : String
  peer_id : String
  target_peer_id : Option String
  signal_type : SignalType
  signal_data : SignalData
deriving DecidableEq, Repr

/-- `new RTCSessionDescription(x)` applied to a payload cast from the
wire: succeeds exactly when the payload is a session description. -/
def toSessionDesc : SignalData → Option SessionDesc
  | .sdp d => some d
  | _ => none

/-- `new RTCIceCandidate(x)` applied to a payload cast from the wire:
succeeds exactly when the payload is a candidate descriptor. -/
def toIceCandidate : SignalData → Option String
  | .ice c => some c
  | _ => none

/-- Modelled from the spec: the platform media engine (§6) behind one
peer link — it holds the local and remote descriptions and the added
remote candidates.  `addIceCandidate` requires a remote description to
be already set (the delivery-order hazard §4.3 gives as the reason
candidates arriving early must be buffered by the core). -/
structure RTCPeerConn where
  localDescription : Option SessionDesc
  remoteDescription : Option SessionDesc
  candidates : List String
deriving DecidableEq, Repr

/-- A freshly constructed peer link: no descriptions, no candidates. -/
def RTCPeerConn.fresh : RTCPeerConn := ⟨none, none, []⟩

/-- Engine `setLocalDescription`. -/
def RTCPeerConn.setLocalDescription (pc : RTCPeerConn) (d : SessionDesc) : RTCPeerConn :=
  { pc with localDescription := some d }

/-- Engine `setRemoteDescription`. -/
def RTCPeerConn.setRemoteDescription (pc : RTCPeerConn) (d : SessionDesc) : RTCPeerConn :=
  { pc with remoteDescription := some d }

/-- Engine `addIceCandidate`: rejected while no remote description is
set, otherwise appended in arrival order. -/
def RTCPeerConn.addCandidate (pc : RTCPeerConn) (c : String) : Except String RTCPeerConn :=
  match pc.remoteDescription with
  | none => .error "InvalidStateError: remote description not set"
  | some _ => .ok { pc with candidates := pc.candidates ++ [c] }

/-- The `WebRTCConnection` wrapper object (src `webrtc.ts`): nullable
peer connection, local/remote stream handles and the two registered
callbacks (tracked as booleans — registered or not). -/
structure WebRTCConnection where
  peerConnection : Option RTCPeerConn
  localStream : Option Unit
  remoteStream : Option Unit
  onRemoteStreamCallback : Bool
  onIceCandidateCallback : Bool
deriving DecidableEq, Repr

/-- `new WebRTCConnection()`: every field null. -/
def newWebRTCConnection : WebRTCConnection := ⟨none, none, none, false, false⟩

/-- `WebRTCConnection.initialize()` (renamed here): acquires the
microphone and constructs the peer connection.  `mediaOk` is the outcome
of `getUserMedia`; on denial the error is rethrown and no field has been
assigned yet. -/
def WebRTCConnection.initializeConn (mediaOk : Bool) (c : WebRTCConnection) :
    Except String WebRTCConnection :=
  if mediaOk then
    .ok { c with localStream := some (), peerConnection := some RTCPeerConn.fresh }
  else
    .error "MediaAcquisitionError: getUserMedia failed"

/-- `WebRTCConnection.createOffer()`: guarded on an initialized peer
connection, creates an offer and applies it as local description. -/
def WebRTCConnection.createOffer (c : WebRTCConnection) :
    Except String (SessionDesc × WebRTCConnection) :=
  match c.peerConnection with
  | none => .error "Peer connection not initialized"
  | some pc =>
    let offer := SessionDesc.offerDesc
    .ok (offer, { c with peerConnection := some (pc.setLocalDescription offer) })

/-- `WebRTCConnection.createAnswer()`: guarded, creates an answer and
applies it as local description. -/
def WebRTCConnection.createAnswer (c : WebRTCConnection) :
    Except String (SessionDesc × WebRTCConnection) :=
  match c.peerConnection with
  | none => .error "Peer connection not initialized"
  | some pc =>
    let answer := SessionDesc.answerDesc
    .ok (answer, { c with peerConnection := some (pc.setLocalDescription answer) })

/-- `WebRTCConnection.handleOffer(offer)`: guarded, wraps the payload in
an `RTCSessionDescription` (which rejects non-description payloads) and
applies it as remote description. -/
def WebRTCConnection.handleOffer (c : WebRTCConnection) (d : SignalData) :
    Except String WebRTCConnection :=
  match c.peerConnection with
  | none => .error "Peer connection not initialized"
  | some pc =>
    match toSessionDesc d with
    | none => .error "MalformedSignalError: not a session description"
    | some desc => .ok { c with peerConnection := some (pc.setRemoteDescription desc) }

/-- `WebRTCConnection.handleAnswer(answer)`: same shape as
`handleOffer`. -/
def WebRTCConnection.handleAnswer (c : WebRTCConnection) (d : SignalData) :
    Except String WebRTCConnection :=
  match c.peerConnection with
  | none => .error "Peer connection not initialized"
  | some pc =>
    match toSessionDesc d with
    | none => .error "MalformedSignalError: not a session description"
    | some desc => .ok { c with peerConnection := some (pc.setRemoteDescription desc) }

/-- `WebRTCConnection.addIceCandidate(candidate)`: guarded, wraps the
payload in an `RTCIceCandidate` and hands it to the engine. -/
def WebRTCConnection.addIceCandidate (c : WebRTCConnection) (d : SignalData) :
    Except String WebRTCConnection :=
  match c.peerConnection with
  | none => .error "Peer connection not initialized"
  | some pc =>
    match toIceCandidate d with
    | none => .error "MalformedSignalError: not an ice candidate"
    | some cand =>
      match pc.addCandidate cand with
      | .error e => .error e
      | .ok pc2 => .ok { c with peerConnection := some pc2 }

/-- `WebRTCConnection.close()`: stops capture, closes the engine and
nulls the stream and connection fields.  It performs no fallible
operation, so it is total. -/
def WebRTCConnection.close (c : WebRTCConnection) : WebRTCConnection :=
  { c with localStream := none, remoteStream := none, peerConnection := none }

/-- The connection-status CSS class set by `updateStatus` (src
`main.ts`). -/
inductive ConnStatus
  | connected
  | disconnected
  | connecting
deriving DecidableEq, Repr

/-- The mutable connection-manager state of `ClickToTalkApp` (src
`main.ts`): the media-engine reference, the bound remote peer, the
negotiated role, and the displayed status. -/
structure AppState where
  webrtc : Option WebRTCConnection
  remotePeerId : Option String
  isInitiator : Bool
  statusText : String
  status : ConnStatus
deriving DecidableEq, Repr

/-- The state of a session that has joined a room and is waiting for a
peer: no engine, no bound peer, not initiator. -/
def idleApp : AppState :=
  ⟨none, none, false, "Waiting for peer...", ConnStatus.connecting⟩

/-- A message the handler asks the signaling service to publish
(`sendSignal(kind, payload, target)` before stamping). -/
structure OutSignal where
  signal_type : SignalType
  signal_data : SignalData
  target_peer_id : Option String
deriving DecidableEq, Repr

/-- Result of one run of the signal handler: the state after all
mutations, the messages published, and the error caught by the
handler's `try/catch` (`none` when no step threw). -/
structure HandlerResult where
  state : AppState
  out : List OutSignal
  caught : Option String
deriving DecidableEq, Repr

/-- `ClickToTalkApp.initializeConnection()` (src `main.ts`): no-op when
an engine already exists; otherwise assigns a fresh `WebRTCConnection`,
initializes it (a failure there propagates, with the assignment already
done), registers the two callbacks, and — when this session is the
initiator with a bound peer — creates and publishes the offer. -/
def initializeConnection (mediaOk : Bool) (s : AppState) : HandlerResult :=
  match s.webrtc with
  | some _ => ⟨s, [], none⟩
  | none =>
    let s1 : AppState := { s with webrtc := some newWebRTCConnection }
    match newWebRTCConnection.initializeConn mediaOk with
    | .error e => ⟨s1, [], some e⟩
    | .ok conn1 =>
      let conn2 : WebRTCConnection :=
        { conn1 with onRemoteStreamCallback := true, onIceCandidateCallback := true }
      let s2 : AppState := { s1 with webrtc := some conn2 }
      match s2.isInitiator, s2.remotePeerId with
      | true, some t =>
        match conn2.createOffer with
        | .error e => ⟨s2, [], some e⟩
        | .ok (offer, conn3) =>
          ⟨{ s2 with webrtc := some conn3 },
           [⟨SignalType.offer, SignalData.sdp offer, some t⟩], none⟩
      | true, none => ⟨s2, [], none⟩
      | false, _ => ⟨s2, [], none⟩

/-- `ClickToTalkApp.handleSignalMessage(message)` (src `main.ts`): the
state-machine step, dispatching on `signal_type`; the surrounding
`try/catch` records a thrown error in `caught` while keeping every
mutation made before the throw. -/
def handleSignalMessage (mediaOk : Bool) (s : AppState) (m : SignalMessage) : HandlerResult :=
  match m.signal_type with
  | .join =>
    match s.remotePeerId with
    | some _ => ⟨s, [], none⟩
    | none =>
      let s1 : AppState :=
        { s with remotePeerId := some m.peer_id, isInitiator := true,
                 statusText := "Peer joined! Ready to talk", status := ConnStatus.connected }
      initializeConnection mediaOk s1
  | .offer =>
    let s1 : AppState := { s with remotePeerId := some m.peer_id, isInitiator := false }
    let r := initializeConnection mediaOk s1
    match r.caught with
    | some e => ⟨r.state, r.out, some e⟩
    | none =>
      match r.state.webrtc with
      | none =>
        ⟨{ r.state with statusText := "Connected! Ready to talk",
                        status := ConnStatus.connected }, r.out, none⟩
      | some conn =>
        match conn.handleOffer m.signal_data with
        | .error e => ⟨r.state, r.out, some e⟩
        | .ok conn1 =>
          let s2 : AppState := { r.state with webrtc := some conn1 }
          match conn1.createAnswer with
          | .error e => ⟨s2, r.out, some e⟩
          | .ok (answer, conn2) =>
            let s3 : AppState := { s2 with webrtc := some conn2 }
            ⟨{ s3 with statusText := "Connected! Ready to talk",
                       status := ConnStatus.connected },
             r.out ++ [⟨SignalType.answer, SignalData.sdp answer, s3.remotePeerId⟩], none⟩
  | .answer =>
    match s.webrtc with
    | none => ⟨s, [], none⟩
    | some conn =>
      if some m.peer_id = s.remotePeerId then
        match conn.handleAnswer m.signal_data with
        | .error e => ⟨s, [], some e⟩
        | .ok conn1 =>
          ⟨{ s with webrtc := some conn1, statusText := "Connected! Ready to talk",
                    status := ConnStatus.connected }, [], none⟩
      else ⟨s, [], none⟩
  | .iceCandidate =>
    match s.webrtc with
    | none => ⟨s, [], none⟩
    | some conn =>
      if some m.peer_id = s.remotePeerId then
        match conn.addIceCandidate m.signal_data with
        | .error e => ⟨s, [], some e⟩
        | .ok conn1 => ⟨{ s with webrtc := some conn1 }, [], none⟩
      else ⟨s, [], none⟩
  | .leave =>
    if some m.peer_id = s.remotePeerId then
      let s1 : AppState :=
        { s with statusText := "Peer disconnected", status := ConnStatus.disconnected,
                 remotePeerId := none }
      match s1.webrtc with
      | some conn =>
        let _ := conn.close
        ⟨{ s1 with webrtc := none }, [], none⟩
      | none => ⟨s1, [], none⟩
    else ⟨s, [], none⟩

/-- Deliver a list of messages to one session in order, keeping only the
state (src `main.ts`: consecutive invocations of the handler). -/
def runTrace (mediaOk : Bool) (s : AppState) (ms : List SignalMessage) : AppState :=
  ms.foldl (fun st m => (handleSignalMessage mediaOk st m).state) s

/-- How `SignalingService.sendSignal` stamps an outgoing signal with the
sender's room and peer id into the wire shape (src `signaling.ts`). -/
def stampOut (room sender : String) (o : OutSignal) : SignalMessage :=
  ⟨room, sender, o.target_peer_id, o.signal_type, o.signal_data⟩

/-- Build a wire message directly. -/
def mkMsg (room p : String) (target : Option String) (ty : SignalType) (d : SignalData) :
    SignalMessage :=
  ⟨room, p, target, ty, d⟩

/-- A broadcast `join` message from peer `p` (empty payload). -/
def joinMsg (room p : String) : SignalMessage :=
  mkMsg room p none SignalType.join SignalData.obj

/-- The peer connection currently held by the session's engine, if
any. -/
def appPC (s : AppState) : Option RTCPeerConn :=
  match s.webrtc with
  | some c => c.peerConnection
  | none => none

/-- The candidates so far applied to the session's engine, if there is
an initialized engine. -/
def appCandidates (s : AppState) : Option (List String) :=
  match appPC s with
  | some pc => some pc.candidates
  | none => none

/-- A session holds the initiator role when a remote peer is bound and
the initiator flag is set. -/
def initiatorRole (s : AppState) : Bool :=
  s.remotePeerId.isSome && s.isInitiator

/-- A session holds the responder role when a remote peer is bound and
the initiator flag is clear. -/
def responderRole (s : AppState) : Bool :=
  s.remotePeerId.isSome && !s.isInitiator

/-- The roles claimed by the tie-break policy: one session initiator,
the other responder. -/
def exactlyOneInitiator (x y : AppState) : Prop :=
  (initiatorRole x = true ∧ responderRole y = true) ∨
  (responderRole x = true ∧ initiatorRole y = true)

instance (x y : AppState) : Decidable (exactlyOneInitiator x y) := by
  unfold exactlyOneInitiator
  infer_instance

/-- A realtime channel handle, identified by its topic (src
`signaling.ts`: `supabase.channel(...)`). -/
structure RealtimeChannel where
  topic : String
deriving DecidableEq, Repr

/-- The mutable state of a `SignalingService` (src `signaling.ts`):
nullable room binding, the peer id fixed at construction, nullable
channel handle, and whether a message callback is registered. -/
structure SigState where
  roomId : Option String
  peerId : String
  channel : Option RealtimeChannel
  onMessageCallback : Bool
deriving DecidableEq, Repr

/-- `generatePeerId()` (src `signaling.ts`), with the random suffix
passed in explicitly. -/
def generatePeerId (rnd : String) : String := "peer_" ++ rnd

/-- `new SignalingService()`: generates the peer id once; nothing else
is set. -/
def newSignalingService (rnd : String) : SigState :=
  ⟨none, generatePeerId rnd, none, false⟩

/-- `SignalingService.getPeerId()`. -/
def SigState.getPeerId (s : SigState) : String := s.peerId

/-- `SignalingService.onMessage(callback)`: registers the single
handler. -/
def SigState.onMessage (s : SigState) : SigState :=
  { s with onMessageCallback := true }

/-- Outcome of the relay publish performed by `sendSignal` (the
`channel.send` call): acknowledged, resolved with an error result the
caller could inspect, or rejected (a thrown/awaited failure). -/
inductive PubOutcome
  | ok
  | errResult
  | reject
deriving DecidableEq, Repr

/-- Externally observable side effects of the signaling service: the
durable insert into the `signaling` table, the channel broadcast (and
its failed variants), the subscription operations, and console
logging. -/
inductive SigEffect
  | insertRow (m : SignalMessage)
  | broadcast (m : SignalMessage)
  | broadcastFailed (m : SignalMessage)
  | subscribeTopic (t : String)
  | unsubscribe
  | log (msg : String)
deriving DecidableEq, Repr

/-- Whether an effect is a console log entry. -/
def SigEffect.isLog : SigEffect → Bool
  | .log _ => true
  | _ => false

/-- Result of a signaling-service operation: the state after the
mutations it reached, its emitted effects, and the error it raised to
its caller, if any. -/
structure SigResult where
  state : SigState
  effects : List SigEffect
  err : Option String
deriving DecidableEq, Repr

/-- `SignalingService.sendSignal(signalType, signalData, targetPeerId)`
(src `signaling.ts`): throws `Not connected to a room` when no room is
bound; otherwise stamps the message, inserts it into the `signaling`
table (result ignored), and — when a channel exists — broadcasts it.
`env` is the broadcast outcome; an error result is ignored by the code,
a rejection propagates to the caller. -/
def SigState.sendSignal (env : PubOutcome) (ty : SignalType) (d : SignalData)
    (target : Option String) (s : SigState) : SigResult :=
  match s.roomId with
  | none => ⟨s, [], some "Not connected to a room"⟩
  | some rid =>
    let m : SignalMessage := ⟨rid, s.peerId, target, ty, d⟩
    match s.channel with
    | none => ⟨s, [SigEffect.insertRow m], none⟩
    | some _ =>
      match env with
      | .ok => ⟨s, [SigEffect.insertRow m, SigEffect.broadcast m], none⟩
      | .errResult => ⟨s, [SigEffect.insertRow m, SigEffect.broadcastFailed m], none⟩
      | .reject => ⟨s, [SigEffect.insertRow m], some "channel send failed"⟩

/-- `SignalingService.leave()` (src `signaling.ts`): when a room is
bound, publish a `leave` signal (any raised error propagates — there is
no catch); then unsubscribe and drop the channel if one exists, and
clear the room binding. -/
def SigState.leave (env : PubOutcome) (s : SigState) : SigResult :=
  let r : SigResult :=
    match s.roomId with
    | some _ => SigState.sendSignal env SignalType.leave SignalData.obj none s
    | none => ⟨s, [], none⟩
  match r.err with
  | some e => ⟨r.state, r.effects, some e⟩
  | none =>
    let r2 : SigState × List SigEffect :=
      match r.state.channel with
      | some _ => ({ r.state with channel := none }, r.effects ++ [SigEffect.unsubscribe])
      | none => (r.state, r.effects)
    ⟨{ r2.1 with roomId := none }, r2.2, none⟩

/-- Outcome of the room lookup/insert that opens
`SignalingService.joinRoom` (the `rooms` table queries): the name
already mapped to a room, a new room row was created, or the insert
failed. -/
inductive RoomResolution
  | existing (id : String)
  | created (id : String)
  | insertErr
deriving DecidableEq, Repr

/-- `SignalingService.joinRoom(roomName)` (src `signaling.ts`): resolves
or creates the room (an insert error is thrown before any mutation),
binds the room id, opens and subscribes the channel `room:` + id, and
publishes the `join` signal. -/
def SigState.joinRoom (res : RoomResolution) (env : PubOutcome) (s : SigState) : SigResult :=
  match res with
  | .insertErr => ⟨s, [], some "room insert failed"⟩
  | .existing rid | .created rid =>
    let s1 : SigState := { s with roomId := some rid }
    let s2 : SigState := { s1 with channel := some ⟨"room:" ++ rid⟩ }
    let r := SigState.sendSignal env SignalType.join SignalData.obj none s2
    ⟨r.state, SigEffect.subscribeTopic ("room:" ++ rid) :: r.effects, r.err⟩

/-- The engine state after one candidate `c` is appended, used to state
the candidate-ordering induction step. -/
def connWithCand (conn : WebRTCConnection) (pc : RTCPeerConn) (c : String) : WebRTCConnection :=
  { conn with peerConnection := some { pc with candidates := pc.candidates ++ [c] } }

/-- A concrete engine link with both descriptions applied and no
candidates yet (witness input). -/
def c4WitnessPC : RTCPeerConn := ⟨some SessionDesc.offerDesc, some SessionDesc.answerDesc, []⟩

/-- A concrete initialized engine holding `c4WitnessPC` (witness
input). -/
def c4WitnessConn : WebRTCConnection := ⟨some c4WitnessPC, some (), none, true, true⟩

/-- A concrete connected initiator session holding `c4WitnessConn`
(witness input). -/
def c4WitnessApp : AppState := ⟨some c4WitnessConn, some "B", true, "t", ConnStatus.connected⟩

/-- A concrete connected responder session holding `c4WitnessConn`
(witness input). -/
def c6WitnessApp : AppState := ⟨some c4WitnessConn, some "B", false, "t", ConnStatus.connected⟩

/-- A concrete signaling service currently joined to a room (witness and
counterexample input). -/
def joinedSig : SigState := ⟨some "room1", "peer_a", some ⟨"room:room1"⟩, true⟩

/-- C1, counterexample: when the relay delivers each peer's `join` to the
other (both sessions were subscribed before either broadcast arrived),
both sessions first take the initiator role, and after the two crossed
offers are processed both end bound with the initiator flag clear — so
neither ends up initiator, refuting "exactly one of A and B ends up in
the initiator role". -/
theorem c1_counterexample :
    ((handleSignalMessage true idleApp (joinMsg "r" "B")).state.isInitiator = true ∧
     (handleSignalMessage true idleApp (joinMsg "r" "A")).state.isInitiator = true) ∧
    (handleSignalMessage true idleApp (joinMsg "r" "B")).out =
      [⟨SignalType.offer, SignalData.sdp SessionDesc.offerDesc, some "B"⟩] ∧
    (handleSignalMessage true idleApp (joinMsg "r" "A")).out =
      [⟨SignalType.offer, SignalData.sdp SessionDesc.offerDesc, some "A"⟩] ∧
    ((handleSignalMessage true (handleSignalMessage true idleApp (joinMsg "r" "B")).state
        (stampOut "r" "B" ⟨SignalType.offer, SignalData.sdp SessionDesc.offerDesc, some "A"⟩)).state.remotePeerId
        = some "B") ∧
    ¬ exactlyOneInitiator
        (handleSignalMessage true (handleSignalMessage true idleApp (joinMsg "r" "B")).state
          (stampOut "r" "B" ⟨SignalType.offer, SignalData.sdp SessionDesc.offerDesc, some "A"⟩)).state
        (handleSignalMessage true (handleSignalMessage true idleApp (joinMsg "r" "A")).state
          (stampOut "r" "A" ⟨SignalType.offer, SignalData.sdp SessionDesc.offerDesc, some "B"⟩)).state := by
  decide

/-- C1, amended: when the joins are strictly ordered — only the later
joiner's `join` is delivered to the earlier session, which answers with
an offer, answered in turn — exactly one of the two sessions ends up
initiator and the other responder, for any room and any two peer
ids.  (Relabeling a and b covers both join orders.) -/
theorem c1_sequential_roles (room a b : String) :
    (handleSignalMessage true idleApp (joinMsg room b)).out =
      [⟨SignalType.offer, SignalData.sdp SessionDesc.offerDesc, some b⟩] ∧
    (handleSignalMessage true idleApp
        (stampOut room a ⟨SignalType.offer, SignalData.sdp SessionDesc.offerDesc, some b⟩)).out =
      [⟨SignalType.answer, SignalData.sdp SessionDesc.answerDesc, some a⟩] ∧
    initiatorRole (handleSignalMessage true (handleSignalMessage true idleApp (joinMsg room b)).state
        (stampOut room b ⟨SignalType.answer, SignalData.sdp SessionDesc.answerDesc, some a⟩)).state = true ∧
    responderRole (handleSignalMessage true idleApp
        (stampOut room a ⟨SignalType.offer, SignalData.sdp SessionDesc.offerDesc, some b⟩)).state = true ∧
    exactlyOneInitiator
      (handleSignalMessage true (handleSignalMessage true idleApp (joinMsg room b)).state
        (stampOut room b ⟨SignalType.answer, SignalData.sdp SessionDesc.answerDesc, some a⟩)).state
      (handleSignalMessage true idleApp
        (stampOut room a ⟨SignalType.offer, SignalData.sdp SessionDesc.offerDesc, some b⟩)).state := by
  refine ⟨rfl, rfl, ?_, rfl, ?_⟩
  · simp [handleSignalMessage, initializeConnection, idleApp, joinMsg, mkMsg, stampOut,
      WebRTCConnection.initializeConn, newWebRTCConnection, WebRTCConnection.createOffer,
      WebRTCConnection.handleAnswer, RTCPeerConn.fresh, RTCPeerConn.setLocalDescription,
      RTCPeerConn.setRemoteDescription, toSessionDesc, initiatorRole]
  · left
    constructor
    · simp [handleSignalMessage, initializeConnection, idleApp, joinMsg, mkMsg, stampOut,
        WebRTCConnection.initializeConn, newWebRTCConnection, WebRTCConnection.createOffer,
        WebRTCConnection.handleAnswer, RTCPeerConn.fresh, RTCPeerConn.setLocalDescription,
        RTCPeerConn.setRemoteDescription, toSessionDesc, initiatorRole]
    · rfl

/-- C2: starting from two idle sessions in the same room, delivering B's
`join` to A, A's resulting offer to B, and B's resulting answer back to
A brings both sessions to the connected status, with no further
offer/answer signaling required: A's handling of the answer emits no
message at all, and neither handler throws. -/
theorem c2_round_trip (room a b : String) :
    (handleSignalMessage true idleApp (joinMsg room b)).out =
      [⟨SignalType.offer, SignalData.sdp SessionDesc.offerDesc, some b⟩] ∧
    (handleSignalMessage true idleApp (joinMsg room b)).caught = none ∧
    (handleSignalMessage true idleApp
        (stampOut room a ⟨SignalType.offer, SignalData.sdp SessionDesc.offerDesc, some b⟩)).out =
      [⟨SignalType.answer, SignalData.sdp SessionDesc.answerDesc, some a⟩] ∧
    (handleSignalMessage true idleApp
        (stampOut room a ⟨SignalType.offer, SignalData.sdp SessionDesc.offerDesc, some b⟩)).caught = none ∧
    (handleSignalMessage true idleApp
        (stampOut room a ⟨SignalType.offer, SignalData.sdp SessionDesc.offerDesc, some b⟩)).state.status =
      ConnStatus.connected ∧
    (handleSignalMessage true (handleSignalMessage true idleApp (joinMsg room b)).state
        (stampOut room b ⟨SignalType.answer, SignalData.sdp SessionDesc.answerDesc, some a⟩)).state.status =
      ConnStatus.connected ∧
    (handleSignalMessage true (handleSignalMessage true idleApp (joinMsg room b)).state
        (stampOut room b ⟨SignalType.answer, SignalData.sdp SessionDesc.answerDesc, some a⟩)).out = [] ∧
    (handleSignalMessage true (handleSignalMessage true idleApp (joinMsg room b)).state
        (stampOut room b ⟨SignalType.answer, SignalData.sdp SessionDesc.answerDesc, some a⟩)).caught = none := by
  refine ⟨rfl, rfl, rfl, rfl, rfl, ?_, ?_, ?_⟩ <;>
    simp [handleSignalMessage, initializeConnection, idleApp, joinMsg, mkMsg, stampOut,
      WebRTCConnection.initializeConn, newWebRTCConnection, WebRTCConnection.createOffer,
      WebRTCConnection.handleAnswer, RTCPeerConn.fresh, RTCPeerConn.setLocalDescription,
      RTCPeerConn.setRemoteDescription, toSessionDesc]

/-- C3, counterexample: a session bound to peer B that receives an offer
from a third peer C is not left unchanged — it rebinds its remote peer
to C, switches to the responder role, and drives the media engine into
producing and publishing an answer to C. -/
theorem c3_counterexample :
    (handleSignalMessage true idleApp (joinMsg "r" "B")).state.remotePeerId = some "B" ∧
    (handleSignalMessage true (handleSignalMessage true idleApp (joinMsg "r" "B")).state
        (mkMsg "r" "C" (some "A") SignalType.offer (SignalData.sdp SessionDesc.offerDesc))).state.remotePeerId
      = some "C" ∧
    (handleSignalMessage true (handleSignalMessage true idleApp (joinMsg "r" "B")).state
        (mkMsg "r" "C" (some "A") SignalType.offer (SignalData.sdp SessionDesc.offerDesc))).state.isInitiator
      = false ∧
    (handleSignalMessage true (handleSignalMessage true idleApp (joinMsg "r" "B")).state
        (mkMsg "r" "C" (some "A") SignalType.offer (SignalData.sdp SessionDesc.offerDesc))).out =
      [⟨SignalType.answer, SignalData.sdp SessionDesc.answerDesc, some "C"⟩] := by
  decide

/-- C3, amended: once a remote peer is bound, a signal of kind join,
answer, ice-candidate or leave whose sender differs from the bound peer
is ignored — no state change, no published message, no error.  (The
offer kind is the exception, shown by the counterexample.) -/
theorem c3_nonoffer_stale_ignored (mediaOk : Bool) (s : AppState) (r : String)
    (m : SignalMessage) (hb : s.remotePeerId = some r) (hne : m.peer_id ≠ r)
    (hk : m.signal_type ≠ SignalType.offer) :
    handleSignalMessage mediaOk s m = ⟨s, [], none⟩ := by
  cases hty : m.signal_type <;> simp [handleSignalMessage, hty, hb, hne] at hk ⊢
  · cases s.webrtc <;> simp [hne]
  · cases s.webrtc <;> simp [hne]

/-- C3, witness for the amended theorem at a concrete bound session and
a stray answer from a third peer. -/
theorem c3_witness :
    handleSignalMessage true ⟨none, some "B", true, "t", ConnStatus.connected⟩
      (mkMsg "r" "C" none SignalType.answer SignalData.obj) =
    ⟨⟨none, some "B", true, "t", ConnStatus.connected⟩, [], none⟩ :=
  c3_nonoffer_stale_ignored true _ "B" _ rfl (by decide) (by decide)

/-- C4, counterexample: an ice-candidate from the bound peer that
arrives before the remote description is set is not buffered — the
engine rejects it, the handler catches and logs the error leaving the
state unchanged, and after the answer later sets the remote description
the engine's candidate list is still empty: the candidate was dropped,
never applied. -/
theorem c4_counterexample :
    ((handleSignalMessage true (handleSignalMessage true idleApp (joinMsg "r" "B")).state
        (mkMsg "r" "B" (some "A") SignalType.iceCandidate (SignalData.ice "cand1"))).caught
      = some "InvalidStateError: remote description not set") ∧
    (handleSignalMessage true (handleSignalMessage true idleApp (joinMsg "r" "B")).state
        (mkMsg "r" "B" (some "A") SignalType.iceCandidate (SignalData.ice "cand1"))).state
      = (handleSignalMessage true idleApp (joinMsg "r" "B")).state ∧
    appCandidates (runTrace true idleApp
        [joinMsg "r" "B",
         mkMsg "r" "B" (some "A") SignalType.iceCandidate (SignalData.ice "cand1"),
         mkMsg "r" "B" (some "A") SignalType.answer (SignalData.sdp SessionDesc.answerDesc)])
      = some [] ∧
    (appPC (runTrace true idleApp
        [joinMsg "r" "B",
         mkMsg "r" "B" (some "A") SignalType.iceCandidate (SignalData.ice "cand1"),
         mkMsg "r" "B" (some "A") SignalType.answer (SignalData.sdp SessionDesc.answerDesc)])).bind
        (fun pc => pc.remoteDescription) = some SessionDesc.answerDesc := by
  decide

/-- C4, amended: only candidates delivered from the bound peer after the
remote description is set are applied to the media engine, and those are
applied in the order received with none dropped; a candidate delivered
earlier is rejected by the engine and dropped (counterexample). -/
theorem c4_in_order_after_description (mediaOk : Bool) (room : String) (tgt : Option String)
    (s : AppState) (conn : WebRTCConnection) (pc : RTCPeerConn) (r : String) (cs : List String)
    (hb : s.remotePeerId = some r) (hw : s.webrtc = some conn)
    (hpc : conn.peerConnection = some pc) (hrd : pc.remoteDescription.isSome) :
    appCandidates (runTrace mediaOk s
        (cs.map (fun c => mkMsg room r tgt SignalType.iceCandidate (SignalData.ice c))))
      = some (pc.candidates ++ cs) := by
  induction cs generalizing s conn pc with
  | nil =>
    simp [runTrace, appCandidates, appPC, hw, hpc]
  | cons c cs ih =>
    obtain ⟨d, hd⟩ := Option.isSome_iff_exists.mp hrd
    have hstep : (handleSignalMessage mediaOk s
        (mkMsg room r tgt SignalType.iceCandidate (SignalData.ice c))).state =
        { s with webrtc := some (connWithCand conn pc c) } := by
      simp [handleSignalMessage, mkMsg, hw, hb, WebRTCConnection.addIceCandidate, hpc,
        toIceCandidate, RTCPeerConn.addCandidate, hd, connWithCand]
    have hrest := ih { s with webrtc := some (connWithCand conn pc c) }
      (connWithCand conn pc c)
      { pc with candidates := pc.candidates ++ [c] }
      hb rfl rfl (by simp [hd])
    simpa [runTrace, hstep, connWithCand] using hrest

/-- C4, witness for the amended theorem: two candidates delivered after
the description is set end up applied in order. -/
theorem c4_witness :
    appCandidates (runTrace true c4WitnessApp
        (["c1", "c2"].map (fun c => mkMsg "r" "B" (some "A") SignalType.iceCandidate (SignalData.ice c))))
      = some ["c1", "c2"] :=
  c4_in_order_after_description true "r" (some "A") c4WitnessApp c4WitnessConn c4WitnessPC
    "B" ["c1", "c2"] rfl rfl rfl (by decide)

/-- C5, counterexample: when microphone acquisition fails while handling
a join, the handler swallows the error (it is caught and logged, not
surfaced) and the session does not return to idle — the remote peer
stays bound and the media-engine reference stays set. -/
theorem c5_counterexample :
    (handleSignalMessage false idleApp (joinMsg "r" "B")).caught
      = some "MediaAcquisitionError: getUserMedia failed" ∧
    ¬ ((handleSignalMessage false idleApp (joinMsg "r" "B")).state.remotePeerId = none ∧
       (handleSignalMessage false idleApp (joinMsg "r" "B")).state.webrtc = none) := by
  decide

/-- C5, amended: a media-engine initialization failure during the join
negotiation is caught and logged by the handler and not retried (no
message is published), but the negotiation is not reset: the remote
peer remains bound, the initiator role remains assigned, and the still
uninitialized media-engine reference is retained. -/
theorem c5_media_failure_swallowed (room p : String) :
    (handleSignalMessage false idleApp (joinMsg room p)).caught
      = some "MediaAcquisitionError: getUserMedia failed" ∧
    (handleSignalMessage false idleApp (joinMsg room p)).state.remotePeerId = some p ∧
    (handleSignalMessage false idleApp (joinMsg room p)).state.isInitiator = true ∧
    (handleSignalMessage false idleApp (joinMsg room p)).state.webrtc
      = some newWebRTCConnection ∧
    (handleSignalMessage false idleApp (joinMsg room p)).out = [] := by
  exact ⟨rfl, rfl, rfl, rfl, rfl⟩

/-- C6, counterexample: an offer whose payload is not a session
description is not dropped without a transition — before the payload is
even inspected the handler binds the sender as remote peer, assigns the
responder role and creates the media engine; only then does the payload
fail, and the error is caught. -/
theorem c6_counterexample :
    (handleSignalMessage true idleApp (mkMsg "r" "C" none SignalType.offer SignalData.obj)).caught
      = some "MalformedSignalError: not a session description" ∧
    (handleSignalMessage true idleApp
        (mkMsg "r" "C" none SignalType.offer SignalData.obj)).state.remotePeerId = some "C" ∧
    (handleSignalMessage true idleApp
        (mkMsg "r" "C" none SignalType.offer SignalData.obj)).state.isInitiator = false ∧
    ((handleSignalMessage true idleApp
        (mkMsg "r" "C" none SignalType.offer SignalData.obj)).state.webrtc).isSome = true ∧
    (handleSignalMessage true idleApp
        (mkMsg "r" "C" none SignalType.offer SignalData.obj)).state ≠ idleApp := by
  decide

/-- C6, amended: the handler never crashes on a malformed payload and
the error is logged, but validation only happens where the payload is
consumed: a malformed answer or ice-candidate from the bound peer
produces no state change at all; a malformed offer leaves the status
unchanged and publishes nothing but retains the remote-peer binding and
role made before the payload was consumed; join ignores its payload
entirely. -/
theorem c6_malformed_payloads (s : AppState) (conn : WebRTCConnection) (pc : RTCPeerConn)
    (r p room : String) (tgt : Option String) (d d2 : SignalData)
    (hw : s.webrtc = some conn) (hpc : conn.peerConnection = some pc)
    (hb : s.remotePeerId = some r)
    (hd : toSessionDesc d = none) (hdi : toIceCandidate d = none) :
    handleSignalMessage true s (mkMsg room r tgt SignalType.answer d)
      = ⟨s, [], some "MalformedSignalError: not a session description"⟩ ∧
    handleSignalMessage true s (mkMsg room r tgt SignalType.iceCandidate d)
      = ⟨s, [], some "MalformedSignalError: not an ice candidate"⟩ ∧
    (handleSignalMessage true idleApp (mkMsg room p tgt SignalType.offer d)).caught
      = some "MalformedSignalError: not a session description" ∧
    (handleSignalMessage true idleApp (mkMsg room p tgt SignalType.offer d)).state.status
      = idleApp.status ∧
    (handleSignalMessage true idleApp (mkMsg room p tgt SignalType.offer d)).state.remotePeerId
      = some p ∧
    (handleSignalMessage true idleApp (mkMsg room p tgt SignalType.offer d)).out = [] ∧
    handleSignalMessage true s (mkMsg room p tgt SignalType.join d)
      = handleSignalMessage true s (mkMsg room p tgt SignalType.join d2) := by
  refine ⟨?_, ?_, ?_, ?_, ?_, ?_, rfl⟩
  · simp [handleSignalMessage, mkMsg, hw, hb, WebRTCConnection.handleAnswer, hpc, hd]
  · simp [handleSignalMessage, mkMsg, hw, hb, WebRTCConnection.addIceCandidate, hpc, hdi]
  all_goals
    simp [handleSignalMessage, mkMsg, initializeConnection, idleApp,
      WebRTCConnection.initializeConn, newWebRTCConnection, WebRTCConnection.handleOffer,
      RTCPeerConn.fresh, hd]

/-- C6, witness for the amended theorem at a concrete bound session and
the empty-object payload. -/
theorem c6_witness :
    (handleSignalMessage true c6WitnessApp (mkMsg "r" "B" none SignalType.answer SignalData.obj)
        = ⟨c6WitnessApp, [], some "MalformedSignalError: not a session description"⟩) ∧
    (handleSignalMessage true c6WitnessApp (mkMsg "r" "B" none SignalType.iceCandidate SignalData.obj)
        = ⟨c6WitnessApp, [], some "MalformedSignalError: not an ice candidate"⟩) ∧
    (handleSignalMessage true idleApp (mkMsg "r" "C" none SignalType.offer SignalData.obj)).caught
      = some "MalformedSignalError: not a session description" ∧
    (handleSignalMessage true idleApp (mkMsg "r" "C" none SignalType.offer SignalData.obj)).state.status
      = idleApp.status ∧
    (handleSignalMessage true idleApp (mkMsg "r" "C" none SignalType.offer SignalData.obj)).state.remotePeerId
      = some "C" ∧
    (handleSignalMessage true idleApp (mkMsg "r" "C" none SignalType.offer SignalData.obj)).out = [] ∧
    handleSignalMessage true c6WitnessApp (mkMsg "r" "C" none SignalType.join SignalData.obj)
      = handleSignalMessage true c6WitnessApp
          (mkMsg "r" "C" none SignalType.join (SignalData.ice "x")) :=
  c6_malformed_payloads c6WitnessApp c4WitnessConn c4WitnessPC "B" "C" "r" none
    SignalData.obj (SignalData.ice "x") rfl rfl rfl (by decide) (by decide)

/-- C7, counterexample: on a joined service whose first leave() publish
rejects, the first call raises and leaves the service still joined, so
a second leave() call is not a no-op — it inserts a second leave row,
broadcasts a second leave message, unsubscribes, and changes the state.
Calling leave() twice is therefore not observably equal to calling it
once for every joined service. -/
theorem c7_counterexample :
    (SigState.leave PubOutcome.reject joinedSig).state = joinedSig ∧
    (SigState.leave PubOutcome.reject joinedSig).err = some "channel send failed" ∧
    SigState.leave PubOutcome.ok (SigState.leave PubOutcome.reject joinedSig).state =
      ⟨⟨none, "peer_a", none, true⟩,
       [SigEffect.insertRow ⟨"room1", "peer_a", none, SignalType.leave, SignalData.obj⟩,
        SigEffect.broadcast ⟨"room1", "peer_a", none, SignalType.leave, SignalData.obj⟩,
        SigEffect.unsubscribe], none⟩ ∧
    (SigState.leave PubOutcome.ok (SigState.leave PubOutcome.reject joinedSig).state).state ≠
      (SigState.leave PubOutcome.reject joinedSig).state := by
  decide

/-- C7, amended: for any signaling service on which a first leave() call
returned without raising, a second leave() call — whatever the relay
publish outcome would be — returns the same state, publishes nothing
(no second leave row, no broadcast, no unsubscribe) and raises no
error.  When the first leave()'s publish rejects, the service stays
joined and the second call is not a no-op (counterexample). -/
theorem c7_leave_idempotent (env envB : PubOutcome) (s s1 : SigState) (effs : List SigEffect)
    (h : SigState.leave env s = ⟨s1, effs, none⟩) :
    SigState.leave envB s1 = ⟨s1, [], none⟩ := by
  obtain ⟨rid, pid, ch, cb⟩ := s
  cases rid <;> cases ch <;> cases env <;>
    simp [SigState.leave, SigState.sendSignal] at h <;>
    obtain ⟨rfl, -⟩ := h <;>
    simp [SigState.leave]

/-- C7, witness: the second leave() after a successful leave() of a
joined service is a no-op. -/
theorem c7_witness :
    SigState.leave PubOutcome.ok ⟨none, "peer_a", none, true⟩ =
      ⟨⟨none, "peer_a", none, true⟩, [], none⟩ :=
  c7_leave_idempotent PubOutcome.ok PubOutcome.ok joinedSig ⟨none, "peer_a", none, true⟩
    [SigEffect.insertRow ⟨"room1", "peer_a", none, SignalType.leave, SignalData.obj⟩,
     SigEffect.broadcast ⟨"room1", "peer_a", none, SignalType.leave, SignalData.obj⟩,
     SigEffect.unsubscribe] (by decide)

/-- C8, counterexample: on a joined service whose leave publish rejects,
leave() raises the error to its caller, nothing is logged, and neither
the unsubscribe nor the release of the room binding happens — the
channel and room binding are intact afterwards. -/
theorem c8_counterexample :
    (SigState.leave PubOutcome.reject joinedSig).err = some "channel send failed" ∧
    (SigState.leave PubOutcome.reject joinedSig).state.channel = some ⟨"room:room1"⟩ ∧
    (SigState.leave PubOutcome.reject joinedSig).state.roomId = some "room1" ∧
    (SigState.leave PubOutcome.reject joinedSig).effects =
      [SigEffect.insertRow ⟨"room1", "peer_a", none, SignalType.leave, SignalData.obj⟩] := by
  decide

/-- C8, amended: leave() performs no error handling around its leave
publish: a publish failure is never logged (no leave() run emits a log
entry), and when the publish rejects the error propagates to the caller
with the unsubscribe and the room-binding release not performed. -/
theorem c8_no_publish_guard (env : PubOutcome) (s : SigState) (rid : String)
    (ch : RealtimeChannel) (h1 : s.roomId = some rid) (h2 : s.channel = some ch) :
    SigState.leave PubOutcome.reject s =
      ⟨s, [SigEffect.insertRow ⟨rid, s.peerId, none, SignalType.leave, SignalData.obj⟩],
       some "channel send failed"⟩ ∧
    ((SigState.leave env s).effects.all fun e => !e.isLog) = true := by
  constructor
  · simp [SigState.leave, SigState.sendSignal, h1, h2]
  · cases env <;> simp [SigState.leave, SigState.sendSignal, h1, h2, SigEffect.isLog]

/-- C8, witness for the amended theorem at a concrete joined service. -/
theorem c8_witness :
    (SigState.leave PubOutcome.reject joinedSig =
      ⟨joinedSig, [SigEffect.insertRow ⟨"room1", "peer_a", none, SignalType.leave, SignalData.obj⟩],
       some "channel send failed"⟩) ∧
    ((SigState.leave PubOutcome.ok joinedSig).effects.all fun e => !e.isLog) = true :=
  c8_no_publish_guard PubOutcome.ok joinedSig "room1" ⟨"room:room1"⟩ rfl rfl

/-- C9: every guarded WebRTCConnection operation — createOffer,
createAnswer, handleOffer, handleAnswer, addIceCandidate — throws
`Peer connection not initialized` whenever no peer connection is held
(a fresh instance before initialization, and any instance after
close()); close() is total, leaves localStream, remoteStream and
peerConnection all null, and closing twice equals closing once. -/
theorem c9_guards_and_close (c cB : WebRTCConnection) (d e : SignalData)
    (h : c.peerConnection = none) :
    c.createOffer = Except.error "Peer connection not initialized" ∧
    c.createAnswer = Except.error "Peer connection not initialized" ∧
    c.handleOffer d = Except.error "Peer connection not initialized" ∧
    c.handleAnswer d = Except.error "Peer connection not initialized" ∧
    c.addIceCandidate d = Except.error "Peer connection not initialized" ∧
    newWebRTCConnection.peerConnection = none ∧
    cB.close.localStream = none ∧
    cB.close.remoteStream = none ∧
    cB.close.peerConnection = none ∧
    cB.close.close = cB.close ∧
    cB.close.createOffer = Except.error "Peer connection not initialized" ∧
    cB.close.createAnswer = Except.error "Peer connection not initialized" ∧
    cB.close.handleOffer e = Except.error "Peer connection not initialized" ∧
    cB.close.handleAnswer e = Except.error "Peer connection not initialized" ∧
    cB.close.addIceCandidate e = Except.error "Peer connection not initialized" := by
  refine ⟨?_, ?_, ?_, ?_, ?_, rfl, rfl, rfl, rfl, rfl, rfl, rfl, rfl, rfl, rfl⟩ <;>
    simp [WebRTCConnection.createOffer, WebRTCConnection.createAnswer,
      WebRTCConnection.handleOffer, WebRTCConnection.handleAnswer,
      WebRTCConnection.addIceCandidate, h]

/-- C9, witness at a fresh instance and a closed initialized
instance. -/
theorem c9_witness :
    newWebRTCConnection.createOffer = Except.error "Peer connection not initialized" ∧
    newWebRTCConnection.createAnswer = Except.error "Peer connection not initialized" ∧
    newWebRTCConnection.handleOffer SignalData.obj
      = Except.error "Peer connection not initialized" ∧
    newWebRTCConnection.handleAnswer SignalData.obj
      = Except.error "Peer connection not initialized" ∧
    newWebRTCConnection.addIceCandidate SignalData.obj
      = Except.error "Peer connection not initialized" ∧
    newWebRTCConnection.peerConnection = none ∧
    c4WitnessConn.close.localStream = none ∧
    c4WitnessConn.close.remoteStream = none ∧
    c4WitnessConn.close.peerConnection = none ∧
    c4WitnessConn.close.close = c4WitnessConn.close ∧
    c4WitnessConn.close.createOffer = Except.error "Peer connection not initialized" ∧
    c4WitnessConn.close.createAnswer = Except.error "Peer connection not initialized" ∧
    c4WitnessConn.close.handleOffer SignalData.obj
      = Except.error "Peer connection not initialized" ∧
    c4WitnessConn.close.handleAnswer SignalData.obj
      = Except.error "Peer connection not initialized" ∧
    c4WitnessConn.close.addIceCandidate SignalData.obj
      = Except.error "Peer connection not initialized" :=
  c9_guards_and_close newWebRTCConnection c4WitnessConn SignalData.obj SignalData.obj rfl

/-- Helper: sendSignal never mutates the service state. -/
theorem sendSignal_state_eq (env : PubOutcome) (ty : SignalType) (d : SignalData)
    (tg : Option String) (s : SigState) : (SigState.sendSignal env ty d tg s).state = s := by
  obtain ⟨rid, pid, ch, cb⟩ := s
  cases rid <;> cases ch <;> cases env <;> rfl

/-- Helper: leave keeps the peer id. -/
theorem leave_peerId (env : PubOutcome) (s : SigState) :
    (SigState.leave env s).state.peerId = s.peerId := by
  obtain ⟨rid, pid, ch, cb⟩ := s
  cases rid <;> cases ch <;> cases env <;> rfl

/-- Helper: joinRoom keeps the peer id. -/
theorem joinRoom_peerId (res : RoomResolution) (env : PubOutcome) (s : SigState) :
    (SigState.joinRoom res env s).state.peerId = s.peerId := by
  obtain ⟨rid, pid, ch, cb⟩ := s
  cases res <;> cases env <;> rfl

/-- C10: leave() modifies only the roomId and channel fields — the state
after leave() equals the original state with just those two fields
replaced; the peer id is fixed at construction (newSignalingService)
and preserved by every operation (joinRoom, sendSignal, onMessage,
leave), so getPeerId returns the same value before joining, after
leave(), and across a subsequent joinRoom(). -/
theorem c10_peer_id_fixed (env envB envC : PubOutcome) (res resB : RoomResolution)
    (s : SigState) (rnd : String) (ty : SignalType) (d : SignalData) (tg : Option String) :
    (SigState.leave env s).state =
      { s with roomId := (SigState.leave env s).state.roomId,
               channel := (SigState.leave env s).state.channel } ∧
    SigState.getPeerId (SigState.leave env s).state = SigState.getPeerId s ∧
    SigState.getPeerId (SigState.joinRoom res envB s).state = SigState.getPeerId s ∧
    (SigState.sendSignal envC ty d tg s).state.peerId = s.peerId ∧
    (SigState.onMessage s).peerId = s.peerId ∧
    SigState.getPeerId (newSignalingService rnd) = generatePeerId rnd ∧
    SigState.getPeerId (SigState.joinRoom resB envC (SigState.leave env s).state).state
      = SigState.getPeerId s := by
  refine ⟨?_, ?_, ?_, ?_, rfl, rfl, ?_⟩
  · obtain ⟨rid, pid, ch, cb⟩ := s
    cases rid <;> cases ch <;> cases env <;> rfl
  · exact leave_peerId env s
  · exact joinRoom_peerId res envB s
  · rw [sendSignal_state_eq]
  · rw [SigState.getPeerId, SigState.getPeerId, joinRoom_peerId, leave_peerId]
